import Mathlib

/-!
Verification of the CRSET personal-stack aggregation, scoring and reporting
pipeline.  The TypeScript sources are shallowly embedded: JS numbers are
modelled as rationals, HTTP adapters as explicit result oracles, and the
wall clock as an explicit `now : String` argument.  JS `Math.round` and
`Number.prototype.toFixed` are modelled by their ECMAScript definitions
restricted to rationals.
-/

namespace Crset

/-- ECMAScript `Math.round`: round half toward positive infinity. -/
def jsRound (q : ℚ) : ℤ := ⌊q + 1/2⌋

/-- Left-pad a string with zeros to the given length. -/
def zeroPad (d : ℕ) (s : String) : String :=
  if d ≤ s.length then s else String.mk (List.replicate (d - s.length) '0') ++ s

/-- Decimal rendering of a nonnegative rational with `d` fixed fraction
digits: scale by `10^d`, round to the nearest integer with ties toward
the larger integer, then split integer and fraction digits. -/
def toFixedMag (d : ℕ) (q : ℚ) : String :=
  let m := (⌊q * (10:ℚ)^d + 1/2⌋).toNat
  if d = 0 then Nat.repr m
  else Nat.repr (m / 10^d) ++ "." ++ zeroPad d (Nat.repr (m % 10^d))

/-- ECMAScript `Number.prototype.toFixed(d)`: a minus sign is split off
first, then the magnitude is rendered with `d` fraction digits. -/
def toFixedQ (d : ℕ) (q : ℚ) : String :=
  if q < 0 then "-" ++ toFixedMag d (-q) else toFixedMag d q

/-- Whether `pre` is a prefix of `l`, by character comparison
(the kernel-reducible core of JS `String.prototype.includes`). -/
def charsPre : List Char → List Char → Bool
  | [], _ => true
  | _ :: _, [] => false
  | a :: as, b :: bs => a == b && charsPre as bs

/-- Whether `needle` occurs as a contiguous run inside `hay`. -/
def charsIncl (needle : List Char) : List Char → Bool
  | [] => charsPre needle []
  | h :: t => charsPre needle (h :: t) || charsIncl needle t

/-- ECMAScript `String.prototype.includes`. -/
def strIncludes (hay needle : String) : Bool := charsIncl needle.data hay.data

/-- JS `Array.prototype.slice(0, e)` on a list: a negative end counts from
the end of the array, clamped at zero. -/
def jsSliceTo (l : List α) (e : ℤ) : List α :=
  l.take (Int.toNat (if e < 0 then (l.length : ℤ) + e else e))

/-- JS truthiness of an optional string (`undefined` and `""` are falsy). -/
def strTruthy : Option String → Bool
  | none => false
  | some s => s != ""

/-- JS truthiness of an optional number (`undefined` and `0` are falsy;
`NaN` does not arise in the rational model). -/
def numTruthy : Option ℚ → Bool
  | none => false
  | some q => q != 0

/-- The chunking loop of `getFinancePortfolio`
(`for (i = 0; i < symbols.length; i += 5) chunks.push(symbols.slice(i, i+5))`). -/
def chunksOf5 : List α → List (List α)
  | [] => []
  | [a] => [[a]]
  | [a, b] => [[a, b]]
  | [a, b, c] => [[a, b, c]]
  | [a, b, c, d] => [[a, b, c, d]]
  | a :: b :: c :: d :: e :: rest => [a, b, c, d, e] :: chunksOf5 rest

theorem chunksOf5_flatten (l : List α) : (chunksOf5 l).flatten = l := by
  induction l using chunksOf5.induct <;> simp [chunksOf5, *]

/-! ## §4.1 Chunked rate-limited fetcher — `getFinancePortfolio`
(src: AlphaVantage integration).

The HTTP adapter `getStockQuote(symbol, apiKey)` is modelled as an oracle
`fetch : String → Except String StockQuote` (closing over the api key):
`Except.ok` is a fulfilled promise, `Except.error` a rejection with its
reason, exactly the per-unit outcome `Promise.allSettled` observes.
`console.error` calls are collected into an explicit log so the effect
is visible to theorems; the TypeScript function's return value is the
first component only. -/

structure StockQuote where
  symbol : String
  price : ℚ
  change : ℚ
  change_percent : ℚ
  volume : ℚ
  latest_trading_day : String
deriving DecidableEq

structure PortfolioMeta where
  source : String
  count : ℕ
deriving DecidableEq

structure FinancePortfolio where
  ok : Bool
  timestamp : String
  currency : String
  total_value : ℚ
  stocks : List StockQuote
  meta : PortfolioMeta
deriving DecidableEq

/-- One settled group: push fulfilled values onto the stock accumulator,
rejected ones onto the `console.error` log (`Failed to fetch <symbol>`). -/
def settleChunk (fetch : String → Except String StockQuote)
    (acc : List StockQuote × List (String × String)) (chunk : List String) :
    List StockQuote × List (String × String) :=
  chunk.foldl
    (fun acc sym =>
      match fetch sym with
      | .ok q => (acc.1 ++ [q], acc.2)
      | .error e => (acc.1, acc.2 ++ [(sym, e)]))
    acc

/-- `getFinancePortfolio(symbols, apiKey, currency)`: chunks of five symbols
are fetched group by group (the inter-group 1s delay has no data effect),
fulfilled quotes are accumulated, rejections are logged and dropped.
Returns the `FinancePortfolio` value together with the error log. -/
def getFinancePortfolio (symbols : List String)
    (fetch : String → Except String StockQuote) (now : String)
    (currency : String := "usd") : FinancePortfolio × List (String × String) :=
  let chunks := chunksOf5 symbols
  let res := chunks.foldl (settleChunk fetch) ([], [])
  let stocks := res.1
  let total_value := stocks.foldl (fun sum stock => sum + stock.price * 1) 0
  ({ ok := true
     timestamp := now
     currency := currency
     total_value := total_value
     stocks := stocks
     meta := { source := "AlphaVantage API", count := stocks.length } },
   res.2)

/-- The fulfilled results of a symbol list, in input order. -/
def fetchSuccesses (fetch : String → Except String StockQuote)
    (symbols : List String) : List StockQuote :=
  symbols.filterMap fun sym =>
    match fetch sym with
    | .ok q => some q
    | .error _ => none

/-- The (symbol, failure-reason) pairs of a symbol list, in input order. -/
def fetchFailures (fetch : String → Except String StockQuote)
    (symbols : List String) : List (String × String) :=
  symbols.filterMap fun sym =>
    match fetch sym with
    | .ok _ => none
    | .error e => some (sym, e)

theorem settleChunk_eq (fetch : String → Except String StockQuote)
    (acc : List StockQuote × List (String × String)) (chunk : List String) :
    settleChunk fetch acc chunk =
      (acc.1 ++ fetchSuccesses fetch chunk, acc.2 ++ fetchFailures fetch chunk) := by
  induction chunk generalizing acc with
  | nil => simp [settleChunk, fetchSuccesses, fetchFailures]
  | cons s rest ih =>
    simp only [settleChunk, List.foldl_cons] at *
    cases h : fetch s with
    | ok q =>
      rw [ih]
      simp [fetchSuccesses, fetchFailures, h]
    | error e =>
      rw [ih]
      simp [fetchSuccesses, fetchFailures, h]

theorem foldl_settleChunk (fetch : String → Except String StockQuote)
    (chunks : List (List String)) (acc : List StockQuote × List (String × String)) :
    chunks.foldl (settleChunk fetch) acc =
      (acc.1 ++ fetchSuccesses fetch chunks.flatten,
       acc.2 ++ fetchFailures fetch chunks.flatten) := by
  induction chunks generalizing acc with
  | nil => simp [fetchSuccesses, fetchFailures]
  | cons c rest ih =>
    simp only [List.foldl_cons, settleChunk_eq, ih, List.flatten_cons]
    simp [fetchSuccesses, fetchFailures, List.filterMap_append, List.append_assoc]

theorem fetch_partition_length (fetch : String → Except String StockQuote)
    (symbols : List String) :
    (fetchSuccesses fetch symbols).length + (fetchFailures fetch symbols).length
      = symbols.length := by
  induction symbols with
  | nil => simp [fetchSuccesses, fetchFailures]
  | cons s rest ih =>
    simp only [fetchSuccesses, fetchFailures, List.filterMap_cons] at *
    cases h : fetch s <;> simp [h] <;> omega

/-- C1 (amended): every input symbol settles exactly once: the returned
portfolio's stocks are the fulfilled results in input order, the error log
holds the (symbol, reason) pairs of the rejected units in input order, the
two counts sum to the input count, and the reported count is the success
count. -/
theorem getFinancePortfolio_partition (symbols : List String)
    (fetch : String → Except String StockQuote) (now currency : String) :
    (getFinancePortfolio symbols fetch now currency).1.stocks
        = fetchSuccesses fetch symbols ∧
    (getFinancePortfolio symbols fetch now currency).2
        = fetchFailures fetch symbols ∧
    (getFinancePortfolio symbols fetch now currency).1.stocks.length
        + (getFinancePortfolio symbols fetch now currency).2.length
        = symbols.length ∧
    (getFinancePortfolio symbols fetch now currency).1.meta.count
        = (getFinancePortfolio symbols fetch now currency).1.stocks.length := by
  have h := foldl_settleChunk fetch (chunksOf5 symbols) ([], [])
  rw [chunksOf5_flatten] at h
  simp only [getFinancePortfolio, h, List.nil_append]
  refine ⟨trivial, trivial, ?_, trivial⟩
  exact fetch_partition_length fetch symbols

/-- A concrete fulfilled quote used by the C1 counterexample. -/
def cexQuote : StockQuote :=
  { symbol := "IBM", price := 100, change := 1, change_percent := 1,
    volume := 5, latest_trading_day := "2025-01-02" }

/-- Oracle where MSFT rejects with reason "timeout". -/
def cexFetchA : String → Except String StockQuote :=
  fun s => if s = "IBM" then .ok cexQuote else .error "timeout"

/-- Oracle where MSFT rejects with reason "HTTP 429". -/
def cexFetchB : String → Except String StockQuote :=
  fun s => if s = "IBM" then .ok cexQuote else .error "HTTP 429"

/-- C1 counterexample: two runs whose failing unit rejected with different
reasons return the very same `FinancePortfolio` value — so the value
`getFinancePortfolio` returns carries no (parameter, failure-reason) list
(the reasons only reach the console log), and its only count is the success
count 1, not the input count 2. -/
theorem getFinancePortfolio_no_failure_list :
    (getFinancePortfolio ["IBM", "MSFT"] cexFetchA "t").1
        = (getFinancePortfolio ["IBM", "MSFT"] cexFetchB "t").1 ∧
    (getFinancePortfolio ["IBM", "MSFT"] cexFetchA "t").2
        ≠ (getFinancePortfolio ["IBM", "MSFT"] cexFetchB "t").2 ∧
    (getFinancePortfolio ["IBM", "MSFT"] cexFetchA "t").1.meta.count = 1 := by
  refine ⟨rfl, by decide, rfl⟩

/-! ## §4.3 Filter/Score/Rank engine — business and domain opportunities
(src: Flippa/MicroAcquire and Namecheap mock integrations).

JS `Array.prototype.sort` with a consistent comparator is required by
ECMAScript to produce the sorted, stable permutation; that permutation is
unique, so it is modelled by a stable insertion sort on the comparator
key. -/

/-- Insert `x` into `l`, passing only elements with strictly larger key:
`x` lands before every element of equal or smaller key. -/
def insDesc (key : α → ℚ) (x : α) : List α → List α
  | [] => [x]
  | y :: ys => if key x < key y then y :: insDesc key x ys else x :: y :: ys

/-- Stable sort, descending by `key` — the unique result of
`arr.sort((a, b) => key(b) - key(a))` under the ECMAScript stable-sort
requirement. -/
def stableSortDesc (key : α → ℚ) : List α → List α
  | [] => []
  | x :: xs => insDesc key x (stableSortDesc key xs)

theorem insDesc_perm (key : α → ℚ) (x : α) (l : List α) :
    List.Perm (insDesc key x l) (x :: l) := by
  induction l with
  | nil => exact List.Perm.refl _
  | cons y ys ih =>
    by_cases h : key x < key y
    · simp only [insDesc, if_pos h]
      exact (ih.cons y).trans (List.Perm.swap x y ys)
    · simp [insDesc, if_neg h]

theorem stableSortDesc_perm (key : α → ℚ) (l : List α) :
    List.Perm (stableSortDesc key l) l := by
  induction l with
  | nil => exact List.Perm.refl _
  | cons x xs ih => exact (insDesc_perm key x _).trans (ih.cons x)

theorem insDesc_sorted (key : α → ℚ) (x : α) (l : List α)
    (hl : l.Pairwise (fun a b => key b ≤ key a)) :
    (insDesc key x l).Pairwise (fun a b => key b ≤ key a) := by
  induction l with
  | nil => simp [insDesc]
  | cons y ys ih =>
    rcases List.pairwise_cons.mp hl with ⟨hy, hys⟩
    by_cases h : key x < key y
    · simp only [insDesc, if_pos h]
      refine List.pairwise_cons.mpr ⟨?_, ih hys⟩
      intro a ha
      rcases List.mem_cons.mp ((insDesc_perm key x ys).mem_iff.mp ha) with
          rfl | ha
      · exact le_of_lt h
      · exact hy a ha
    · simp only [insDesc, if_neg h]
      refine List.pairwise_cons.mpr ⟨?_, hl⟩
      intro a ha
      rcases List.mem_cons.mp ha with rfl | ha
      · exact le_of_not_lt h
      · exact le_trans (hy a ha) (le_of_not_lt h)

theorem stableSortDesc_sorted (key : α → ℚ) (l : List α) :
    (stableSortDesc key l).Pairwise (fun a b => key b ≤ key a) := by
  induction l with
  | nil => simp [stableSortDesc]
  | cons x xs ih => exact insDesc_sorted key x _ ih

theorem insDesc_filter_key (key : α → ℚ) (s : ℚ) (x : α) (l : List α) :
    (insDesc key x l).filter (fun a => decide (key a = s)) =
      if key x = s then x :: l.filter (fun a => decide (key a = s))
      else l.filter (fun a => decide (key a = s)) := by
  induction l with
  | nil => by_cases h : key x = s <;> simp [insDesc, h]
  | cons y ys ih =>
    by_cases hlt : key x < key y
    · have hxy : ¬ (key x = s ∧ key y = s) := by
        rintro ⟨h1, h2⟩
        rw [h1, h2] at hlt
        exact lt_irrefl s hlt
      simp only [insDesc, if_pos hlt, List.filter_cons]
      by_cases hy : key y = s
      · have hx : ¬ key x = s := fun hx => hxy ⟨hx, hy⟩
        simp [hy, ih, hx]
      · simp [hy, ih]
    · simp only [insDesc, if_neg hlt, List.filter_cons]
      by_cases hx : key x = s <;> simp [hx]

/-- Stability: for every key value, the elements carrying that key appear
in the output in exactly their input order. -/
theorem stableSortDesc_stable (key : α → ℚ) (s : ℚ) (l : List α) :
    (stableSortDesc key l).filter (fun a => decide (key a = s)) =
      l.filter (fun a => decide (key a = s)) := by
  induction l with
  | nil => rfl
  | cons x xs ih =>
    rw [stableSortDesc, insDesc_filter_key, ih]
    by_cases hx : key x = s <;> simp [List.filter_cons, hx]

/-- A Flippa/MicroAcquire business listing (the `category` union type is
modelled as its underlying string). -/
structure BusinessOpportunity where
  id : String
  title : String
  description : String
  category : String
  price : ℚ
  currency : String
  monthly_revenue : ℚ
  monthly_profit : ℚ
  multiple : ℚ
  age_months : ℚ
  marketplace : String
  url : String
  verified : Bool
  score : ℚ
deriving DecidableEq

structure BusinessMeta where
  source : String
  count : ℕ
  total_value : ℚ
  avg_multiple : ℚ
deriving DecidableEq

structure BusinessReport where
  ok : Bool
  timestamp : String
  currency : String
  opportunities : List BusinessOpportunity
  meta : BusinessMeta
deriving DecidableEq

/-- Mock listing flip_001 — the spec scenario's first record. -/
def flip001 : BusinessOpportunity :=
  { id := "flip_001", title := "AI Content Generator SaaS",
    description := "Automated content generation tool with 500+ active users",
    category := "saas", price := 45000, currency := "USD",
    monthly_revenue := 2500, monthly_profit := 1800, multiple := 25,
    age_months := 18, marketplace := "Flippa",
    url := "https://flippa.com/12345", verified := true, score := 8.5 }

/-- Mock listing micro_002 — the spec scenario's second record. -/
def micro002 : BusinessOpportunity :=
  { id := "micro_002", title := "Niche E-commerce Store",
    description :=
      "Dropshipping store in fitness niche with established supplier relationships",
    category := "ecommerce", price := 28000, currency := "USD",
    monthly_revenue := 4200, monthly_profit := 1200, multiple := 23.3,
    age_months := 24, marketplace := "MicroAcquire",
    url := "https://microacquire.com/listings/xyz", verified := true,
    score := 7.8 }

def indie003 : BusinessOpportunity :=
  { id := "indie_003", title := "Developer Tools Chrome Extension",
    description := "Productivity tool for developers with 10k+ users",
    category := "app", price := 15000, currency := "USD",
    monthly_revenue := 800, monthly_profit := 650, multiple := 23.1,
    age_months := 12, marketplace := "IndieHackers",
    url := "https://indiehackers.com/product/abc", verified := false,
    score := 7.2 }

def flip004 : BusinessOpportunity :=
  { id := "flip_004", title := "Newsletter Platform SaaS",
    description := "Email newsletter platform with 200 paying customers",
    category := "saas", price := 95000, currency := "USD",
    monthly_revenue := 5500, monthly_profit := 3800, multiple := 25,
    age_months := 30, marketplace := "Flippa",
    url := "https://flippa.com/67890", verified := true, score := 9.1 }

def micro005 : BusinessOpportunity :=
  { id := "micro_005", title := "Social Media Analytics Tool",
    description := "Instagram analytics dashboard with API integration",
    category := "saas", price := 32000, currency := "USD",
    monthly_revenue := 1800, monthly_profit := 1200, multiple := 26.7,
    age_months := 15, marketplace := "MicroAcquire",
    url := "https://microacquire.com/listings/social", verified := true,
    score := 8.0 }

/-- The hardcoded mock candidate list of `getBusinessOpportunities`. -/
def mockOpportunities : List BusinessOpportunity :=
  [flip001, micro002, indie003, flip004, micro005]

/-- The filter chain of `getBusinessOpportunities`: each criterion is
applied only when its argument is JS-truthy (`if (category)`,
`if (maxPrice)`, `if (minRevenue)`). -/
def bizFilter (opps : List BusinessOpportunity) (category : Option String)
    (maxPrice minRevenue : Option ℚ) : List BusinessOpportunity :=
  let f1 := if strTruthy category then
      opps.filter (fun opp => decide (opp.category = category.getD ""))
    else opps
  let f2 := if numTruthy maxPrice then
      f1.filter (fun opp => decide (opp.price ≤ maxPrice.getD 0))
    else f1
  if numTruthy minRevenue then
    f2.filter (fun opp => decide (minRevenue.getD 0 ≤ opp.monthly_revenue))
  else f2

/-- Filter then sort by score descending — the engine core of
`getBusinessOpportunities`, parameterised by the candidate list. -/
def bizRank (opps : List BusinessOpportunity) (category : Option String)
    (maxPrice minRevenue : Option ℚ) : List BusinessOpportunity :=
  stableSortDesc (fun opp => opp.score) (bizFilter opps category maxPrice minRevenue)

/-- `getBusinessOpportunities(category?, maxPrice?, minRevenue?)`: filter
and rank the mock candidates, then aggregate total value (sum of prices)
and average multiple (mean rounded via `Math.round(x * 10) / 10`,
or 0 for an empty set). -/
def getBusinessOpportunities (now : String) (category : Option String)
    (maxPrice minRevenue : Option ℚ) : BusinessReport :=
  let filtered := bizRank mockOpportunities category maxPrice minRevenue
  let total_value := filtered.foldl (fun sum opp => sum + opp.price) 0
  let avg_multiple :=
    if 0 < filtered.length then
      (filtered.foldl (fun sum opp => sum + opp.multiple) 0)
        / (filtered.length : ℚ)
    else 0
  { ok := true
    timestamp := now
    currency := "USD"
    opportunities := filtered
    meta := { source := "Flippa + MicroAcquire + IndieHackers (Mock)"
              count := filtered.length
              total_value := total_value
              avg_multiple := (jsRound (avg_multiple * 10) : ℚ) / 10 } }

/-- A Namecheap domain listing (the `status` union type is modelled as its
underlying string). -/
structure DomainOpportunity where
  domain : String
  extension : String
  price : ℚ
  currency : String
  registrar : String
  expires_at : Option String
  estimated_value : Option ℚ
  roi_score : Option ℚ
  status : String
deriving DecidableEq

structure DomainsMeta where
  source : String
  count : ℕ
  total_value : ℚ
deriving DecidableEq

structure DomainsReport where
  ok : Bool
  timestamp : String
  currency : String
  opportunities : List DomainOpportunity
  meta : DomainsMeta
deriving DecidableEq

/-- The hardcoded mock candidate list of `getDomainOpportunities`. -/
def mockDomainOpportunities : List DomainOpportunity :=
  [{ domain := "financeflow", extension := ".io", price := 299,
     currency := "USD", registrar := "Namecheap", expires_at := none,
     estimated_value := some 500, roi_score := some 1.67,
     status := "available" },
   { domain := "cryptotracker", extension := ".com", price := 1200,
     currency := "USD", registrar := "GoDaddy Auctions",
     expires_at := some "2025-12-31", estimated_value := some 2500,
     roi_score := some 2.08, status := "auction" },
   { domain := "saasmetrics", extension := ".ai", price := 450,
     currency := "USD", registrar := "Dynadot", expires_at := none,
     estimated_value := some 800, roi_score := some 1.78,
     status := "premium" },
   { domain := "portfoliodash", extension := ".app", price := 89,
     currency := "USD", registrar := "Namecheap", expires_at := none,
     estimated_value := some 200, roi_score := some 2.25,
     status := "available" }]

/-- The keyword/price filter of `getDomainOpportunities`: empty keyword
list matches everything, otherwise some keyword must occur
case-insensitively inside the domain name; price must be at most
`maxPrice`. -/
def domainMatches (keywords : List String) (maxPrice : ℚ)
    (opp : DomainOpportunity) : Bool :=
  (keywords.isEmpty
      || keywords.any (fun kw => strIncludes opp.domain.toLower kw.toLower))
    && decide (opp.price ≤ maxPrice)

/-- `getDomainOpportunities(keywords, maxPrice = 1000)`: filter the mock
candidates, sort by `(b.roi_score || 0) - (a.roi_score || 0)` descending,
aggregate the total value. -/
def getDomainOpportunities (now : String) (keywords : List String)
    (maxPrice : ℚ := 1000) : DomainsReport :=
  let filtered := stableSortDesc (fun opp => opp.roi_score.getD 0)
    (mockDomainOpportunities.filter (domainMatches keywords maxPrice))
  let total_value := filtered.foldl (fun sum opp => sum + opp.price) 0
  { ok := true
    timestamp := now
    currency := "USD"
    opportunities := filtered
    meta := { source := "Namecheap API (Mock)"
              count := filtered.length
              total_value := total_value } }

theorem getBiz_opportunities (now : String) (cat : Option String)
    (mp mr : Option ℚ) :
    (getBusinessOpportunities now cat mp mr).opportunities
      = bizRank mockOpportunities cat mp mr := rfl

theorem getDom_opportunities (now : String) (kws : List String) (mp : ℚ) :
    (getDomainOpportunities now kws mp).opportunities
      = stableSortDesc (fun opp => opp.roi_score.getD 0)
          (mockDomainOpportunities.filter (domainMatches kws mp)) := rfl

theorem mem_bizFilter (opps : List BusinessOpportunity)
    (cat : Option String) (mp mr : Option ℚ) (o : BusinessOpportunity) :
    o ∈ bizFilter opps cat mp mr ↔
      o ∈ opps ∧
      (strTruthy cat = true → o.category = cat.getD "") ∧
      (numTruthy mp = true → o.price ≤ mp.getD 0) ∧
      (numTruthy mr = true → mr.getD 0 ≤ o.monthly_revenue) := by
  unfold bizFilter
  cases hc : strTruthy cat <;> cases hp : numTruthy mp <;>
    cases hr : numTruthy mr <;>
      simp [List.mem_filter, and_assoc] <;> tauto

theorem mem_bizRank (opps : List BusinessOpportunity) (cat : Option String)
    (mp mr : Option ℚ) (o : BusinessOpportunity) :
    o ∈ bizRank opps cat mp mr ↔ o ∈ bizFilter opps cat mp mr :=
  (stableSortDesc_perm _ _).mem_iff

/-- C2 (amended): each engine returns exactly the subset of its candidate
list satisfying the JS-truthy-guarded predicates — category equality,
price at most the maximum, revenue at least the minimum for the business
engine; case-insensitive substring keyword match (empty list matches all)
and price at most the maximum for the domain engine — and on the
scenario's two records with category "saas" the pipeline returns exactly
the first record with total value 45000.  (Amendment forced by the
counterexample: a maximum price of 0 or minimum revenue of 0 is falsy and
disables that predicate instead of applying it.) -/
theorem engine_returns_filtered_subset :
    (∀ (now : String) (cat : Option String) (mp mr : Option ℚ)
        (o : BusinessOpportunity),
      o ∈ (getBusinessOpportunities now cat mp mr).opportunities ↔
        o ∈ mockOpportunities ∧
        (strTruthy cat = true → o.category = cat.getD "") ∧
        (numTruthy mp = true → o.price ≤ mp.getD 0) ∧
        (numTruthy mr = true → mr.getD 0 ≤ o.monthly_revenue)) ∧
    (∀ (now : String) (kws : List String) (mp : ℚ) (o : DomainOpportunity),
      o ∈ (getDomainOpportunities now kws mp).opportunities ↔
        o ∈ mockDomainOpportunities ∧
        ((kws.isEmpty
            || kws.any (fun kw => strIncludes o.domain.toLower kw.toLower))
          = true) ∧
        o.price ≤ mp) ∧
    bizRank [flip001, micro002] (some "saas") none none = [flip001] ∧
    ([flip001].foldl (fun sum opp => sum + opp.price) 0 : ℚ) = 45000 := by
  refine ⟨?_, ?_, by rfl, by simp [flip001]⟩
  · intro now cat mp mr o
    rw [getBiz_opportunities, mem_bizRank, mem_bizFilter]
  · intro now kws mp o
    rw [getDom_opportunities, (stableSortDesc_perm _ _).mem_iff]
    simp [List.mem_filter, domainMatches, and_assoc]

/-- C2 counterexample: with maximum price 0 the engine does not return the
subset with price at most 0 (which is empty); it returns every candidate —
flip_001 with price 45000 is in the output. -/
theorem maxPrice_zero_breaks_subset_contract :
    flip001 ∈ (getBusinessOpportunities "t" none (some 0) none).opportunities
      ∧ ¬ ((flip001.price : ℚ) ≤ 0) := by
  constructor
  · have h : (getBusinessOpportunities "t" none (some 0) none).opportunities
        = [flip004, flip001, micro005, micro002, indie003] := by
      norm_num [getBusinessOpportunities, bizRank, bizFilter,
        mockOpportunities, stableSortDesc, insDesc, strTruthy, numTruthy,
        flip001, micro002, indie003, flip004, micro005]
    rw [h]
    exact List.mem_cons_of_mem _ (List.mem_cons_self _ _)
  · show ¬ ((45000 : ℚ) ≤ 0)
    norm_num

/-- C9: a maximum price of 0 (and likewise a minimum revenue of 0) is
JS-falsy, so the guard skips the filter entirely: the call behaves exactly
as if the bound were absent, all five candidates are returned although the
predicate `price ≤ 0` selects none of them. -/
theorem zero_bound_disables_filter :
    (∀ (now : String) (cat : Option String) (mr : Option ℚ),
        getBusinessOpportunities now cat (some 0) mr
          = getBusinessOpportunities now cat none mr) ∧
    (∀ (now : String) (cat : Option String) (mp : Option ℚ),
        getBusinessOpportunities now cat mp (some 0)
          = getBusinessOpportunities now cat mp none) ∧
    (getBusinessOpportunities "t" none (some 0) none).opportunities.length
        = 5 ∧
    mockOpportunities.filter (fun o => decide (o.price ≤ (0:ℚ))) = [] := by
  refine ⟨fun _ _ _ => rfl, fun _ _ _ => rfl, ?_, ?_⟩
  · norm_num [getBusinessOpportunities, bizRank, bizFilter,
      mockOpportunities, stableSortDesc, insDesc, strTruthy, numTruthy,
      flip001, micro002, indie003, flip004, micro005]
  · norm_num [mockOpportunities, flip001, micro002, indie003, flip004,
      micro005]

theorem foldl_add_map (f : α → ℚ) (a : ℚ) (l : List α) :
    l.foldl (fun s x => s + f x) a = a + (l.map f).sum := by
  induction l generalizing a with
  | nil => simp
  | cons x xs ih => simp [ih, add_assoc]

/-- The spec's rounding: one decimal place, round half up. -/
def roundHalfUp1 (q : ℚ) : ℚ := ((⌊10 * q + 1/2⌋ : ℤ) : ℚ) / 10

/-- C4: the reported total value is exactly the sum of `price` over the
returned set (business and domain engines), the reported average multiple
is the mean of `multiple` rounded to one decimal half-up (`Math.round` is
half-up on every input), and an empty filtered set yields total 0 and
average 0 — honest rationals, no NaN in the model. -/
theorem aggregate_statistics_exact :
    (∀ (now : String) (cat : Option String) (mp mr : Option ℚ),
        (getBusinessOpportunities now cat mp mr).meta.total_value
          = ((getBusinessOpportunities now cat mp mr).opportunities.map
              (fun o => o.price)).sum) ∧
    (∀ (now : String) (cat : Option String) (mp mr : Option ℚ),
        (getBusinessOpportunities now cat mp mr).meta.avg_multiple
          = if (getBusinessOpportunities now cat mp mr).opportunities.isEmpty
            then 0
            else roundHalfUp1
              ((((getBusinessOpportunities now cat mp mr).opportunities.map
                  (fun o => o.multiple)).sum)
                / ((getBusinessOpportunities now cat mp
                      mr).opportunities.length : ℚ))) ∧
    (∀ (now : String) (kws : List String) (mp : ℚ),
        (getDomainOpportunities now kws mp).meta.total_value
          = ((getDomainOpportunities now kws mp).opportunities.map
              (fun o => o.price)).sum) ∧
    (∀ q : ℚ, (jsRound (q * 10) : ℚ) / 10 = roundHalfUp1 q) ∧
    ((getBusinessOpportunities "t" (some "zzz") none none).opportunities = []
      ∧ (getBusinessOpportunities "t" (some "zzz") none none).meta.total_value
          = 0
      ∧ (getBusinessOpportunities "t" (some "zzz") none
          none).meta.avg_multiple = 0) := by
  have hround : ∀ q : ℚ, (jsRound (q * 10) : ℚ) / 10 = roundHalfUp1 q := by
    intro q
    unfold jsRound roundHalfUp1
    rw [mul_comm]
  have hzzz : (getBusinessOpportunities "t" (some "zzz") none
      none).opportunities = [] := by
    norm_num [getBusinessOpportunities, bizRank, bizFilter,
      mockOpportunities, stableSortDesc, strTruthy, numTruthy,
      flip001, micro002, indie003, flip004, micro005]
  have hzavg : (getBusinessOpportunities "t" (some "zzz") none
      none).meta.avg_multiple = 0 := by
    show (jsRound (_ * 10) : ℚ) / 10 = 0
    norm_num [getBusinessOpportunities, bizRank, bizFilter,
      mockOpportunities, stableSortDesc, strTruthy, numTruthy, jsRound,
      flip001, micro002, indie003, flip004, micro005]
  refine ⟨?_, ?_, ?_, hround, hzzz, by rfl, hzavg⟩
  · intro now cat mp mr
    show (bizRank mockOpportunities cat mp mr).foldl
        (fun sum opp => sum + opp.price) 0 = _
    rw [foldl_add_map, zero_add, getBiz_opportunities]
  · intro now cat mp mr
    show (jsRound (_ * 10) : ℚ) / 10 = _
    rw [hround, getBiz_opportunities]
    cases h : bizRank mockOpportunities cat mp mr with
    | nil => norm_num [roundHalfUp1]
    | cons x xs =>
      have hlen : 0 < (x :: xs).length := by simp
      simp [if_pos hlen, foldl_add_map]
  · intro now kws mp
    show (stableSortDesc (fun opp => opp.roi_score.getD 0)
        (mockDomainOpportunities.filter (domainMatches kws mp))).foldl
        (fun sum opp => sum + opp.price) 0 = _
    rw [foldl_add_map, zero_add, getDom_opportunities]

/-- C7: the engine ordering is deterministic and stable — the output is a
permutation of the filtered set, pairwise sorted by key descending, and
for every key value the elements carrying it keep their original relative
order; re-running on the same input trivially yields the same output since
the engine is a pure function. -/
theorem engine_sort_stable :
    (∀ (now : String) (cat : Option String) (mp mr : Option ℚ),
        (getBusinessOpportunities now cat mp mr).opportunities.Pairwise
          (fun a b => b.score ≤ a.score)) ∧
    (∀ (now : String) (cat : Option String) (mp mr : Option ℚ),
        List.Perm (getBusinessOpportunities now cat mp mr).opportunities
          (bizFilter mockOpportunities cat mp mr)) ∧
    (∀ (now : String) (cat : Option String) (mp mr : Option ℚ) (s : ℚ),
        (getBusinessOpportunities now cat mp mr).opportunities.filter
            (fun o => decide (o.score = s))
          = (bizFilter mockOpportunities cat mp mr).filter
              (fun o => decide (o.score = s))) ∧
    (∀ (now : String) (cat : Option String) (mp mr : Option ℚ),
        getBusinessOpportunities now cat mp mr
          = getBusinessOpportunities now cat mp mr) ∧
    (∀ (now : String) (kws : List String) (mp : ℚ),
        (getDomainOpportunities now kws mp).opportunities.Pairwise
          (fun a b => b.roi_score.getD 0 ≤ a.roi_score.getD 0)) ∧
    (∀ (now : String) (kws : List String) (mp : ℚ) (s : ℚ),
        (getDomainOpportunities now kws mp).opportunities.filter
            (fun o => decide (o.roi_score.getD 0 = s))
          = (mockDomainOpportunities.filter (domainMatches kws mp)).filter
              (fun o => decide (o.roi_score.getD 0 = s))) := by
  refine ⟨?_, ?_, ?_, fun _ _ _ _ => rfl, ?_, ?_⟩
  · intro now cat mp mr
    rw [getBiz_opportunities]
    exact stableSortDesc_sorted _ _
  · intro now cat mp mr
    rw [getBiz_opportunities]
    exact stableSortDesc_perm _ _
  · intro now cat mp mr s
    rw [getBiz_opportunities]
    exact stableSortDesc_stable _ s _
  · intro now kws mp
    rw [getDom_opportunities]
    exact stableSortDesc_sorted _ _
  · intro now kws mp s
    rw [getDom_opportunities]
    exact stableSortDesc_stable _ s _

/-! ## §4.4 Alert engine — `generateMarketAlerts` (src: AI insights
module), over the Snapshot shape produced by `getCMCMarketOverview`. -/

/-- One row of `market_overview.top_cryptos`. -/
structure OverviewCrypto where
  rank : ℕ
  name : String
  symbol : String
  price : ℚ
  market_cap : ℚ
  volume_24h : ℚ
  percent_change_24h : ℚ
  percent_change_7d : ℚ
deriving DecidableEq

structure OverviewGlobal where
  total_market_cap : ℚ
  total_volume_24h : ℚ
  btc_dominance : ℚ
  eth_dominance : ℚ
  active_cryptocurrencies : ℚ
  active_exchanges : ℚ
deriving DecidableEq

structure OverviewMeta where
  source : String
  count : ℕ
deriving DecidableEq

/-- The Snapshot assembled by `getCMCMarketOverview`. -/
structure MarketOverview where
  ok : Bool
  timestamp : String
  currency : String
  global : OverviewGlobal
  top_cryptos : List OverviewCrypto
  meta : OverviewMeta
deriving DecidableEq

/-- A derived alert (the `type` and `priority` union types are modelled as
their underlying strings). -/
structure MarketAlert where
  type : String
  title : String
  message : String
  priority : String
deriving DecidableEq

/-- The per-item alert body pushed by `generateMarketAlerts` when
`Math.abs(crypto.percent_change_24h) > 10`. -/
def itemAlert (crypto : OverviewCrypto) : Option MarketAlert :=
  if |crypto.percent_change_24h| > 10 then
    some { type := if crypto.percent_change_24h > 0 then "opportunity"
                   else "warning"
           title := crypto.name ++ " "
             ++ (if crypto.percent_change_24h > 0 then "Surge" else "Drop")
           message := crypto.symbol ++ " has "
             ++ (if crypto.percent_change_24h > 0 then "gained" else "lost")
             ++ " " ++ toFixedQ 2 |crypto.percent_change_24h|
             ++ "% in the last 24 hours."
           priority := if |crypto.percent_change_24h| > 15 then "high"
                       else "medium" }
  else none

/-- The global dominance-shift alert
(`marketData.global.btc_dominance < 50`). -/
def dominanceAlert (btc_dominance : ℚ) : MarketAlert :=
  { type := "info"
    title := "Altcoin Season Indicator"
    message := "BTC dominance is at " ++ toFixedQ 1 btc_dominance
      ++ "%, suggesting increased altcoin activity."
    priority := "medium" }

/-- `generateMarketAlerts(marketData)`: walk the items pushing price-move
alerts, then push the dominance alert if triggered. -/
def generateMarketAlerts (marketData : MarketOverview) : List MarketAlert :=
  let alerts := marketData.top_cryptos.foldl
    (fun alerts crypto =>
      match itemAlert crypto with
      | some a => alerts ++ [a]
      | none => alerts)
    []
  if marketData.global.btc_dominance < 50 then
    alerts ++ [dominanceAlert marketData.global.btc_dominance]
  else alerts

/-- The spec's rule table, giving only what the table fixes: kind and
priority of the per-item rule. -/
def specItemSignal (crypto : OverviewCrypto) : Option (String × String) :=
  if |crypto.percent_change_24h| > 10 then
    some (if crypto.percent_change_24h > 0 then "opportunity" else "warning",
          if |crypto.percent_change_24h| > 15 then "high" else "medium")
  else none

theorem foldl_pushAlert (l : List OverviewCrypto) (acc : List MarketAlert) :
    l.foldl
      (fun alerts crypto =>
        match itemAlert crypto with
        | some a => alerts ++ [a]
        | none => alerts)
      acc = acc ++ l.filterMap itemAlert := by
  induction l generalizing acc with
  | nil => simp
  | cons c rest ih =>
    simp only [List.foldl_cons, List.filterMap_cons]
    cases h : itemAlert c <;> simp [h, ih]

/-- The scenario snapshot: one item with `change_24h = 16.0`, dominance
above the info threshold. -/
def scenarioOverview : MarketOverview :=
  { ok := true, timestamp := "t", currency := "USD",
    global := { total_market_cap := 1, total_volume_24h := 1,
                btc_dominance := 56.5, eth_dominance := 18.2,
                active_cryptocurrencies := 2, active_exchanges := 2 },
    top_cryptos := [{ rank := 1, name := "Bitcoin", symbol := "BTC",
                      price := 100, market_cap := 1000, volume_24h := 10,
                      percent_change_24h := 16.0,
                      percent_change_7d := 2 }],
    meta := { source := "CoinMarketCap API", count := 1 } }

/-- C3: the alert list is exactly the rule table's output in evaluation
order — per-item alerts first, in item order (one optional alert per item,
so at most one per (item, rule) pair), then the global dominance alert;
the per-item alert's kind and priority agree with the spec table for every
item; and the scenario item with change 16.0 yields exactly one
`opportunity` alert of priority `high`. -/
theorem alert_engine_rule_table :
    (∀ m : MarketOverview,
        generateMarketAlerts m
          = m.top_cryptos.filterMap itemAlert
            ++ (if m.global.btc_dominance < 50
                then [dominanceAlert m.global.btc_dominance] else [])) ∧
    (∀ c : OverviewCrypto,
        (itemAlert c).map (fun a => (a.type, a.priority))
          = specItemSignal c) ∧
    generateMarketAlerts scenarioOverview
      = [{ type := "opportunity", title := "Bitcoin Surge",
           message := "BTC has gained 16.00% in the last 24 hours.",
           priority := "high" }] := by
  refine ⟨?_, ?_, ?_⟩
  · intro m
    rw [generateMarketAlerts, foldl_pushAlert, List.nil_append]
    by_cases h : m.global.btc_dominance < 50 <;> simp [h]
  · intro c
    unfold itemAlert specItemSignal
    by_cases h : |c.percent_change_24h| > 10 <;> simp [h]
  · norm_num [generateMarketAlerts, scenarioOverview, itemAlert,
      toFixedQ, toFixedMag, zeroPad]
    decide

/-! ## §4.2 Multi-provider aggregator — CoinMarketCap integration.

Live HTTP calls are modelled as oracles; the configured api key is an
explicit argument (`if (!CMC_API_KEY)` — the empty string is falsy and
selects the mock fallback).  `crypto.quote[currency]` is an object keyed
by currency code, modelled as an association list; accessing a missing
key throws a `TypeError` in JS, which the `catch`/`throw` of
`getCMCMarketOverview` propagates — modelled as an `Except.error`. -/

structure CMCQuote where
  price : ℚ
  volume_24h : ℚ
  volume_change_24h : ℚ
  percent_change_1h : ℚ
  percent_change_24h : ℚ
  percent_change_7d : ℚ
  percent_change_30d : ℚ
  market_cap : ℚ
  market_cap_dominance : ℚ
  fully_diluted_market_cap : ℚ
  last_updated : String
deriving DecidableEq

/-- A CoinMarketCap listing (`platform`, always `null` in the repository's
data, is modelled as an optional unit). -/
structure CMCCryptocurrency where
  id : ℕ
  name : String
  symbol : String
  slug : String
  cmc_rank : ℕ
  num_market_pairs : ℕ
  circulating_supply : ℚ
  total_supply : ℚ
  max_supply : Option ℚ
  last_updated : String
  date_added : String
  tags : List String
  platform : Option Unit
  quote : List (String × CMCQuote)
deriving DecidableEq

structure CMCGlobalMetrics where
  active_cryptocurrencies : ℚ
  total_cryptocurrencies : ℚ
  active_market_pairs : ℚ
  active_exchanges : ℚ
  total_exchanges : ℚ
  eth_dominance : ℚ
  btc_dominance : ℚ
  defi_volume_24h : ℚ
  defi_market_cap : ℚ
  stablecoin_volume_24h : ℚ
  stablecoin_market_cap : ℚ
  derivatives_volume_24h : ℚ
  total_market_cap : ℚ
  total_volume_24h : ℚ
  last_updated : String
deriving DecidableEq

/-- The Bitcoin entry of the mock data set. -/
def btcMock (now : String) : CMCCryptocurrency :=
  { id := 1, name := "Bitcoin", symbol := "BTC", slug := "bitcoin",
    cmc_rank := 1, num_market_pairs := 10000,
    circulating_supply := 19500000, total_supply := 19500000,
    max_supply := some 21000000, last_updated := now,
    date_added := "2013-04-28T00:00:00.000Z",
    tags := ["mineable", "pow", "sha-256"], platform := none,
    quote := [("USD",
      { price := 109554.23, volume_24h := 35000000000,
        volume_change_24h := 5.2, percent_change_1h := 0.15,
        percent_change_24h := 1.57, percent_change_7d := 3.45,
        percent_change_30d := 12.34, market_cap := 2136307485000,
        market_cap_dominance := 56.5,
        fully_diluted_market_cap := 2300634830000,
        last_updated := now })] }

/-- The Ethereum entry of the mock data set. -/
def ethMock (now : String) : CMCCryptocurrency :=
  { id := 1027, name := "Ethereum", symbol := "ETH", slug := "ethereum",
    cmc_rank := 2, num_market_pairs := 8000,
    circulating_supply := 120000000, total_supply := 120000000,
    max_supply := none, last_updated := now,
    date_added := "2015-08-07T00:00:00.000Z",
    tags := ["mineable", "pow", "smart-contracts"], platform := none,
    quote := [("USD",
      { price := 3858.23, volume_24h := 18000000000,
        volume_change_24h := 3.8, percent_change_1h := 0.25,
        percent_change_24h := 2.34, percent_change_7d := 5.67,
        percent_change_30d := 15.89, market_cap := 462987600000,
        market_cap_dominance := 18.2,
        fully_diluted_market_cap := 462987600000,
        last_updated := now })] }

/-- `getMockCMCData(limit)`: the two-entry reference data set, truncated
by `mockData.slice(0, limit)`. -/
def getMockCMCData (now : String) (limit : ℤ) : List CMCCryptocurrency :=
  jsSliceTo [btcMock now, ethMock now] limit

def getMockGlobalMetrics (now : String) : CMCGlobalMetrics :=
  { active_cryptocurrencies := 10500, total_cryptocurrencies := 25000,
    active_market_pairs := 85000, active_exchanges := 750,
    total_exchanges := 1200, eth_dominance := 18.2, btc_dominance := 56.5,
    defi_volume_24h := 5000000000, defi_market_cap := 85000000000,
    stablecoin_volume_24h := 75000000000,
    stablecoin_market_cap := 150000000000,
    derivatives_volume_24h := 120000000000,
    total_market_cap := 3800000000000, total_volume_24h := 125000000000,
    last_updated := now }

/-- `getCMCTopCryptos(limit, currency)`: without a configured key, the
mock data; otherwise the live listing endpoint (an oracle here). -/
def getCMCTopCryptos (apiKey : String)
    (live : ℤ → String → Except String (List CMCCryptocurrency))
    (now : String) (limit : ℤ := 10) (currency : String := "USD") :
    Except String (List CMCCryptocurrency) :=
  if apiKey = "" then .ok (getMockCMCData now limit)
  else live limit currency

/-- `getCMCGlobalMetrics(currency)`: without a configured key, the mock
metrics; otherwise the live global-metrics endpoint (an oracle here). -/
def getCMCGlobalMetrics (apiKey : String)
    (live : String → Except String CMCGlobalMetrics) (now : String)
    (currency : String := "USD") : Except String CMCGlobalMetrics :=
  if apiKey = "" then .ok (getMockGlobalMetrics now)
  else live currency

/-- The `topCryptos.map(...)` projection of `getCMCMarketOverview`:
reading `crypto.quote[currency]` on a listing without that currency key
throws, aborting the whole map. -/
def mapQuotes (currency : String) :
    List CMCCryptocurrency → Except String (List OverviewCrypto)
  | [] => .ok []
  | crypto :: rest =>
    match crypto.quote.lookup currency with
    | some q =>
      match mapQuotes currency rest with
      | .ok tail =>
        .ok ({ rank := crypto.cmc_rank, name := crypto.name,
               symbol := crypto.symbol, price := q.price,
               market_cap := q.market_cap, volume_24h := q.volume_24h,
               percent_change_24h := q.percent_change_24h,
               percent_change_7d := q.percent_change_7d } :: tail)
      | .error e => .error e
    | none => .error "TypeError: quote for requested currency is undefined"

/-- `getCMCMarketOverview(limit, currency)`: run the two sub-calls (the
`Promise.all` pair, deterministic here), project the listing rows, and
assemble the Snapshot; any sub-call failure propagates as the aggregate
failure. -/
def getCMCMarketOverview (apiKey : String)
    (liveTop : ℤ → String → Except String (List CMCCryptocurrency))
    (liveGlobal : String → Except String CMCGlobalMetrics) (now : String)
    (limit : ℤ := 10) (currency : String := "USD") :
    Except String MarketOverview := do
  let topCryptos ← getCMCTopCryptos apiKey liveTop now limit currency
  let globalMetrics ← getCMCGlobalMetrics apiKey liveGlobal now currency
  let projected ← mapQuotes currency topCryptos
  .ok { ok := true
        timestamp := now
        currency := currency
        global := { total_market_cap := globalMetrics.total_market_cap
                    total_volume_24h := globalMetrics.total_volume_24h
                    btc_dominance := globalMetrics.btc_dominance
                    eth_dominance := globalMetrics.eth_dominance
                    active_cryptocurrencies :=
                      globalMetrics.active_cryptocurrencies
                    active_exchanges := globalMetrics.active_exchanges }
        top_cryptos := projected
        meta := { source := "CoinMarketCap API"
                  count := topCryptos.length } }

theorem mapQuotes_length (currency : String) (l : List CMCCryptocurrency)
    (out : List OverviewCrypto) (h : mapQuotes currency l = .ok out) :
    out.length = l.length := by
  induction l generalizing out with
  | nil =>
    simp only [mapQuotes] at h
    cases h
    rfl
  | cons c rest ih =>
    simp only [mapQuotes] at h
    cases hq : c.quote.lookup currency with
    | none => rw [hq] at h; cases h
    | some q =>
      rw [hq] at h
      cases hrest : mapQuotes currency rest with
      | error e => rw [hrest] at h; cases h
      | ok tail =>
        rw [hrest] at h
        cases h
        simp [ih tail hrest]

/-- C10: the fallback data set has at most two entries: without a
configured credential `getCMCTopCryptos` returns `min(limit, 2)` listings
(Bitcoin then Ethereum) for every nonnegative limit, never more than two
for any limit, and the aggregated overview's `top_cryptos` length and
`meta.count` never exceed 2 in fallback mode. -/
theorem fallback_at_most_two :
    (∀ (now : String) (limit : ℤ), 0 ≤ limit →
        (getMockCMCData now limit).length = min limit.toNat 2) ∧
    (∀ (now : String) (limit : ℤ), (getMockCMCData now limit).length ≤ 2) ∧
    (∀ (now : String) (limit : ℤ),
        (getMockCMCData now limit).map (fun c => c.name)
          = jsSliceTo ["Bitcoin", "Ethereum"] limit) ∧
    (∀ (liveTop : ℤ → String → Except String (List CMCCryptocurrency))
        (liveGlobal : String → Except String CMCGlobalMetrics)
        (now : String) (limit : ℤ) (currency : String),
      match getCMCMarketOverview "" liveTop liveGlobal now limit currency
        with
      | .ok ov => ov.top_cryptos.length ≤ 2 ∧ ov.meta.count ≤ 2
      | .error _ => True) := by
  have hlen : ∀ (now : String) (limit : ℤ),
      (getMockCMCData now limit).length ≤ 2 := by
    intro now limit
    simp only [getMockCMCData, jsSliceTo, List.length_take]
    by_cases h : limit < 0 <;> simp [h]
  refine ⟨?_, hlen, ?_, ?_⟩
  · intro now limit h
    simp only [getMockCMCData, jsSliceTo, List.length_take,
      if_neg (not_lt.mpr h)]
    simp
  · intro now limit
    simp [getMockCMCData, jsSliceTo, List.map_take, btcMock, ethMock]
  · intro liveTop liveGlobal now limit currency
    unfold getCMCMarketOverview getCMCTopCryptos getCMCGlobalMetrics
    simp only [bind, Except.bind, reduceIte]
    cases hm : mapQuotes currency (getMockCMCData now limit) with
    | error e => simp [hm]
    | ok projected =>
      refine ⟨?_, hlen now limit⟩
      rw [mapQuotes_length currency _ _ hm]
      exact hlen now limit

/-- C10 witness: at limit 5 the fallback returns `min 5 2 = 2` entries. -/
theorem fallback_at_most_two_witness :
    (0:ℤ) ≤ 5 ∧ (getMockCMCData "t" 5).length = min ((5:ℤ)).toNat 2 :=
  ⟨by norm_num, fallback_at_most_two.1 "t" 5 (by norm_num)⟩

/-- A stub adapter whose quotes carry no currency information at all. -/
def c6Fetch : String → Except String StockQuote := fun s =>
  .ok { symbol := s, price := 100, change := 1, change_percent := 1,
        volume := 5, latest_trading_day := "2025-01-02" }

/-- C6 counterexample: the very same sub-call results are labelled "usd"
in one call and "eur" in another; the "eur" call succeeds with no failure
surfaced — no construction-time assertion relates the monetary figures to
the declared currency code and nothing is rejected. -/
theorem currency_never_asserted :
    (getFinancePortfolio ["IBM"] c6Fetch "t" "usd").1.stocks
        = (getFinancePortfolio ["IBM"] c6Fetch "t" "eur").1.stocks ∧
    (getFinancePortfolio ["IBM"] c6Fetch "t" "eur").1.currency = "eur" ∧
    (getFinancePortfolio ["IBM"] c6Fetch "t" "eur").1.ok = true ∧
    (getFinancePortfolio ["IBM"] c6Fetch "t" "eur").2 = [] :=
  ⟨rfl, rfl, rfl, rfl⟩

/-- C6 (amended): an assembled Snapshot carries exactly one declared
currency code, but it is simply the caller's argument: the portfolio
aggregator labels results with whatever currency was requested,
independent of the sub-call data (which carries no currency field), and
the market overview labels the snapshot with the requested code; no
mismatch check exists. -/
theorem snapshot_currency_is_callers_argument :
    (∀ (symbols : List String)
        (fetch : String → Except String StockQuote) (now c : String),
        (getFinancePortfolio symbols fetch now c).1.currency = c) ∧
    (∀ (symbols : List String)
        (fetch : String → Except String StockQuote) (now c c' : String),
        (getFinancePortfolio symbols fetch now c).1.stocks
          = (getFinancePortfolio symbols fetch now c').1.stocks) ∧
    (∀ (symbols : List String)
        (fetch : String → Except String StockQuote) (now c c' : String),
        (getFinancePortfolio symbols fetch now c).1.total_value
          = (getFinancePortfolio symbols fetch now c').1.total_value) ∧
    (∀ (apiKey : String)
        (liveTop : ℤ → String → Except String (List CMCCryptocurrency))
        (liveGlobal : String → Except String CMCGlobalMetrics)
        (now : String) (limit : ℤ) (currency : String),
      match getCMCMarketOverview apiKey liveTop liveGlobal now limit
          currency with
      | .ok ov => ov.currency = currency
      | .error _ => True) := by
  refine ⟨fun _ _ _ _ => rfl, fun _ _ _ _ _ => rfl, fun _ _ _ _ _ => rfl,
    ?_⟩
  intro apiKey liveTop liveGlobal now limit currency
  unfold getCMCMarketOverview
  cases hT : getCMCTopCryptos apiKey liveTop now limit currency with
  | error e => simp [bind, Except.bind, hT]
  | ok tops =>
    cases hG : getCMCGlobalMetrics apiKey liveGlobal now currency with
    | error e => simp [bind, Except.bind, hT, hG]
    | ok metrics =>
      cases hm : mapQuotes currency tops with
      | error e => simp [bind, Except.bind, hT, hG, hm]
      | ok projected => simp [bind, Except.bind, hT, hG, hm]

/-! ## §4.5 Report renderer — `generateMarkdownReport` and its numeric
formatting (src: reports/generate route). -/

/-- The `formatCurrency` helper of `generateMarkdownReport`. -/
def formatCurrency (num : ℚ) : String :=
  if num ≥ 1e12 then "$" ++ toFixedQ 2 (num / 1e12) ++ "T"
  else if num ≥ 1e9 then "$" ++ toFixedQ 2 (num / 1e9) ++ "B"
  else if num ≥ 1e6 then "$" ++ toFixedQ 2 (num / 1e6) ++ "M"
  else "$" ++ toFixedQ 2 num

/-- The `formatPercent` helper of `generateMarkdownReport`. -/
def formatPercent (num : ℚ) : String :=
  let sign := if num ≥ 0 then "+" else ""
  sign ++ toFixedQ 2 num ++ "%"

/-- C8: the fixed formatting policy — T with 2 decimals from 10^12, B from
10^9, M from 10^6, plain 2-decimal currency below 10^6; 2,500,000,000
renders as "$2.50B"; every percentage carries an explicit sign
("+" for nonnegative values from the code, "-" from the rendered
magnitude of a negative value) and 2 decimals. -/
theorem numeric_formatting_policy :
    (∀ q : ℚ, (1e12:ℚ) ≤ q →
        formatCurrency q = "$" ++ toFixedQ 2 (q / 1e12) ++ "T") ∧
    (∀ q : ℚ, (1e9:ℚ) ≤ q → q < 1e12 →
        formatCurrency q = "$" ++ toFixedQ 2 (q / 1e9) ++ "B") ∧
    (∀ q : ℚ, (1e6:ℚ) ≤ q → q < 1e9 →
        formatCurrency q = "$" ++ toFixedQ 2 (q / 1e6) ++ "M") ∧
    (∀ q : ℚ, q < 1e6 → formatCurrency q = "$" ++ toFixedQ 2 q) ∧
    formatCurrency 2500000000 = "$2.50B" ∧
    (∀ q : ℚ, 0 ≤ q → formatPercent q = "+" ++ toFixedQ 2 q ++ "%") ∧
    (∀ q : ℚ, q < 0 →
        formatPercent q = "-" ++ toFixedMag 2 (-q) ++ "%") := by
  refine ⟨?_, ?_, ?_, ?_, ?_, ?_, ?_⟩
  · intro q h
    rw [formatCurrency, if_pos h]
  · intro q h1 h2
    rw [formatCurrency, if_neg (not_le.mpr h2), if_pos h1]
  · intro q h1 h2
    have h3 : ¬ ((1e12:ℚ) ≤ q) := by
      intro hc
      exact absurd (lt_of_lt_of_le h2 (by norm_num)) (not_lt.mpr hc)
    rw [formatCurrency, if_neg h3, if_neg (not_le.mpr h2), if_pos h1]
  · intro q h
    have h9 : ¬ ((1e9:ℚ) ≤ q) := by
      intro hc
      exact absurd (lt_of_lt_of_le h (by norm_num)) (not_lt.mpr hc)
    have h12 : ¬ ((1e12:ℚ) ≤ q) := by
      intro hc
      exact absurd (lt_of_lt_of_le h (by norm_num)) (not_lt.mpr hc)
    rw [formatCurrency, if_neg h12, if_neg h9, if_neg (not_le.mpr h)]
  · norm_num [formatCurrency, toFixedQ, toFixedMag, zeroPad]
    decide
  · intro q h
    rw [formatPercent]
    simp only [ge_iff_le, if_pos h, toFixedQ, if_neg (not_lt.mpr h)]
  · intro q h
    rw [formatPercent]
    simp only [ge_iff_le, if_neg (not_le.mpr h), toFixedQ, if_pos h]
    rfl

/-- C8 witness: the B branch at 2,500,000,000 and the negative-percent
sign at -3. -/
theorem numeric_formatting_policy_witness :
    ((1e9:ℚ) ≤ 2500000000 ∧ (2500000000:ℚ) < 1e12 ∧
      formatCurrency 2500000000
        = "$" ++ toFixedQ 2 ((2500000000:ℚ) / 1e9) ++ "B") ∧
    ((-3:ℚ) < 0 ∧ formatPercent (-3) = "-" ++ toFixedMag 2 (-(-3:ℚ)) ++ "%") :=
  ⟨⟨by norm_num, by norm_num,
      numeric_formatting_policy.2.1 2500000000 (by norm_num) (by norm_num)⟩,
   ⟨by norm_num,
      numeric_formatting_policy.2.2.2.2.2.2 (-3) (by norm_num)⟩⟩

/-- One Binance trading pair of `trading_summary.pairs`. -/
structure TradingPair where
  symbol : String
  price : ℚ
  priceChange24h : ℚ
  priceChangePercent24h : ℚ
  high24h : ℚ
  low24h : ℚ
  volume24h : ℚ
  quoteVolume24h : ℚ
deriving DecidableEq

structure TradingMeta where
  exchange : String
  pairs_count : ℕ
  base_currency : String
deriving DecidableEq

structure TradingSummary where
  ok : Bool
  timestamp : String
  source : String
  pairs : List TradingPair
  meta : TradingMeta
deriving DecidableEq

/-- The opaque insight value embedded in a Report (the `sentiment` union
type is modelled as its underlying string). -/
structure MarketInsight where
  summary : String
  sentiment : String
  key_points : List String
  opportunities : List String
  risks : List String
  recommendation : String
  confidence : ℚ
  timestamp : String
deriving DecidableEq

structure ReportMeta where
  version : String
  data_sources : List String
  generation_duration_ms : ℚ
deriving DecidableEq

structure ReportData where
  market_overview : MarketOverview
  trading_summary : TradingSummary
  ai_insights : MarketInsight
deriving DecidableEq

/-- The canonical Report value (`reportData` in the route). -/
structure Report where
  ok : Bool
  report_id : String
  generated_at : String
  format : String
  data : ReportData
  meta : ReportMeta
deriving DecidableEq

/-- The JSON document tree produced by the structured rendering
(`NextResponse.json`); JS numbers round-trip exactly through JSON, so a
number node carries the rational it denotes. -/
inductive JsonValue where
  | str : String → JsonValue
  | num : ℚ → JsonValue
  | bool : Bool → JsonValue
  | arr : List JsonValue → JsonValue
  | obj : List (String × JsonValue) → JsonValue

/-- Recover a JS integer count from a JSON number node. -/
def jNat (q : ℚ) : Option ℕ :=
  if q.den = 1 ∧ 0 ≤ q.num then some q.num.toNat else none

/-- Parse every element of a JSON array, failing if any element fails. -/
def parseEach (g : JsonValue → Option α) : List JsonValue → Option (List α)
  | [] => some []
  | j :: rest =>
    (g j).bind fun x => (parseEach g rest).bind fun xs => some (x :: xs)

theorem jNat_cast (n : ℕ) : jNat (n : ℚ) = some n := by simp [jNat]

theorem parseEach_round {α : Type} (f : α → JsonValue)
    (g : JsonValue → Option α) (h : ∀ x, g (f x) = some x) (l : List α) :
    parseEach g (l.map f) = some l := by
  induction l with
  | nil => rfl
  | cons x rest ih => simp [parseEach, h, ih]

/-- Structured rendering of one `top_cryptos` row. -/
def ovCryptoToJson (c : OverviewCrypto) : JsonValue :=
  .obj [("rank", .num (c.rank : ℚ)), ("name", .str c.name),
        ("symbol", .str c.symbol), ("price", .num c.price),
        ("market_cap", .num c.market_cap),
        ("volume_24h", .num c.volume_24h),
        ("percent_change_24h", .num c.percent_change_24h),
        ("percent_change_7d", .num c.percent_change_7d)]

def ovCryptoFromJson : JsonValue → Option OverviewCrypto
  | .obj [("rank", .num rank), ("name", .str name),
          ("symbol", .str symbol), ("price", .num price),
          ("market_cap", .num market_cap),
          ("volume_24h", .num volume_24h),
          ("percent_change_24h", .num percent_change_24h),
          ("percent_change_7d", .num percent_change_7d)] =>
    (jNat rank).bind fun rank =>
      some { rank, name, symbol, price, market_cap, volume_24h,
             percent_change_24h, percent_change_7d }
  | _ => none

theorem ovCrypto_round (c : OverviewCrypto) :
    ovCryptoFromJson (ovCryptoToJson c) = some c := by
  simp [ovCryptoFromJson, ovCryptoToJson, jNat_cast]

def overviewToJson (m : MarketOverview) : JsonValue :=
  .obj [("ok", .bool m.ok), ("timestamp", .str m.timestamp),
        ("currency", .str m.currency),
        ("global", .obj
          [("total_market_cap", .num m.global.total_market_cap),
           ("total_volume_24h", .num m.global.total_volume_24h),
           ("btc_dominance", .num m.global.btc_dominance),
           ("eth_dominance", .num m.global.eth_dominance),
           ("active_cryptocurrencies",
             .num m.global.active_cryptocurrencies),
           ("active_exchanges", .num m.global.active_exchanges)]),
        ("top_cryptos", .arr (m.top_cryptos.map ovCryptoToJson)),
        ("meta", .obj [("source", .str m.meta.source),
                       ("count", .num (m.meta.count : ℚ))])]

def globalFromJson : JsonValue → Option OverviewGlobal
  | .obj [("total_market_cap", .num total_market_cap),
          ("total_volume_24h", .num total_volume_24h),
          ("btc_dominance", .num btc_dominance),
          ("eth_dominance", .num eth_dominance),
          ("active_cryptocurrencies", .num active_cryptocurrencies),
          ("active_exchanges", .num active_exchanges)] =>
    some { total_market_cap, total_volume_24h, btc_dominance,
           eth_dominance, active_cryptocurrencies, active_exchanges }
  | _ => none

def ovMetaFromJson : JsonValue → Option OverviewMeta
  | .obj [("source", .str source), ("count", .num count)] =>
    (jNat count).bind fun count => some { source, count }
  | _ => none

def overviewFromJson : JsonValue → Option MarketOverview
  | .obj [("ok", .bool ok), ("timestamp", .str timestamp),
          ("currency", .str currency), ("global", g),
          ("top_cryptos", .arr tc), ("meta", mt)] =>
    (globalFromJson g).bind fun global =>
      (parseEach ovCryptoFromJson tc).bind fun top_cryptos =>
        (ovMetaFromJson mt).bind fun meta =>
          some { ok, timestamp, currency, global, top_cryptos, meta }
  | _ => none

theorem overview_round (m : MarketOverview) :
    overviewFromJson (overviewToJson m) = some m := by
  simp [overviewFromJson, overviewToJson, globalFromJson, ovMetaFromJson,
    jNat_cast, parseEach_round ovCryptoToJson ovCryptoFromJson
      ovCrypto_round]

def pairToJson (p : TradingPair) : JsonValue :=
  .obj [("symbol", .str p.symbol), ("price", .num p.price),
        ("priceChange24h", .num p.priceChange24h),
        ("priceChangePercent24h", .num p.priceChangePercent24h),
        ("high24h", .num p.high24h), ("low24h", .num p.low24h),
        ("volume24h", .num p.volume24h),
        ("quoteVolume24h", .num p.quoteVolume24h)]

def pairFromJson : JsonValue → Option TradingPair
  | .obj [("symbol", .str symbol), ("price", .num price),
          ("priceChange24h", .num priceChange24h),
          ("priceChangePercent24h", .num priceChangePercent24h),
          ("high24h", .num high24h), ("low24h", .num low24h),
          ("volume24h", .num volume24h),
          ("quoteVolume24h", .num quoteVolume24h)] =>
    some { symbol, price, priceChange24h, priceChangePercent24h, high24h,
           low24h, volume24h, quoteVolume24h }
  | _ => none

theorem pair_round (p : TradingPair) :
    pairFromJson (pairToJson p) = some p := rfl

def tradingToJson (t : TradingSummary) : JsonValue :=
  .obj [("ok", .bool t.ok), ("timestamp", .str t.timestamp),
        ("source", .str t.source),
        ("pairs", .arr (t.pairs.map pairToJson)),
        ("meta", .obj [("exchange", .str t.meta.exchange),
                       ("pairs_count", .num (t.meta.pairs_count : ℚ)),
                       ("base_currency", .str t.meta.base_currency)])]

def tradingMetaFromJson : JsonValue → Option TradingMeta
  | .obj [("exchange", .str exchange), ("pairs_count", .num pairs_count),
          ("base_currency", .str base_currency)] =>
    (jNat pairs_count).bind fun pairs_count =>
      some { exchange, pairs_count, base_currency }
  | _ => none

def tradingFromJson : JsonValue → Option TradingSummary
  | .obj [("ok", .bool ok), ("timestamp", .str timestamp),
          ("source", .str source), ("pairs", .arr ps), ("meta", mt)] =>
    (parseEach pairFromJson ps).bind fun pairs =>
      (tradingMetaFromJson mt).bind fun meta =>
        some { ok, timestamp, source, pairs, meta }
  | _ => none

theorem trading_round (t : TradingSummary) :
    tradingFromJson (tradingToJson t) = some t := by
  simp [tradingFromJson, tradingToJson, tradingMetaFromJson, jNat_cast,
    parseEach_round pairToJson pairFromJson pair_round]

def insightToJson (i : MarketInsight) : JsonValue :=
  .obj [("summary", .str i.summary), ("sentiment", .str i.sentiment),
        ("key_points", .arr (i.key_points.map JsonValue.str)),
        ("opportunities", .arr (i.opportunities.map JsonValue.str)),
        ("risks", .arr (i.risks.map JsonValue.str)),
        ("recommendation", .str i.recommendation),
        ("confidence", .num i.confidence),
        ("timestamp", .str i.timestamp)]

def jsonStr : JsonValue → Option String
  | .str s => some s
  | _ => none

def insightFromJson : JsonValue → Option MarketInsight
  | .obj [("summary", .str summary), ("sentiment", .str sentiment),
          ("key_points", .arr kp), ("opportunities", .arr op),
          ("risks", .arr rk), ("recommendation", .str recommendation),
          ("confidence", .num confidence), ("timestamp", .str timestamp)] =>
    (parseEach jsonStr kp).bind fun key_points =>
      (parseEach jsonStr op).bind fun opportunities =>
        (parseEach jsonStr rk).bind fun risks =>
          some { summary, sentiment, key_points, opportunities, risks,
                 recommendation, confidence, timestamp }
  | _ => none

theorem insight_round (i : MarketInsight) :
    insightFromJson (insightToJson i) = some i := by
  simp [insightFromJson, insightToJson,
    parseEach_round JsonValue.str jsonStr (fun _ => rfl)]

/-- The structured rendering of `getCMCMarketOverview`'s report route:
field-for-field projection of the canonical Report, namespaced under the
fixed top-level keys of `reportData`. -/
def reportToJson (r : Report) : JsonValue :=
  .obj [("ok", .bool r.ok), ("report_id", .str r.report_id),
        ("generated_at", .str r.generated_at), ("format", .str r.format),
        ("data", .obj
          [("market_overview", overviewToJson r.data.market_overview),
           ("trading_summary", tradingToJson r.data.trading_summary),
           ("ai_insights", insightToJson r.data.ai_insights)]),
        ("meta", .obj
          [("version", .str r.meta.version),
           ("data_sources",
             .arr (r.meta.data_sources.map JsonValue.str)),
           ("generation_duration_ms",
             .num r.meta.generation_duration_ms)])]

def reportDataFromJson : JsonValue → Option ReportData
  | .obj [("market_overview", mo), ("trading_summary", ts),
          ("ai_insights", ai)] =>
    (overviewFromJson mo).bind fun market_overview =>
      (tradingFromJson ts).bind fun trading_summary =>
        (insightFromJson ai).bind fun ai_insights =>
          some { market_overview, trading_summary, ai_insights }
  | _ => none

def reportMetaFromJson : JsonValue → Option ReportMeta
  | .obj [("version", .str version), ("data_sources", .arr ds),
          ("generation_duration_ms", .num generation_duration_ms)] =>
    (parseEach jsonStr ds).bind fun data_sources =>
      some { version, data_sources, generation_duration_ms }
  | _ => none

def reportFromJson : JsonValue → Option Report
  | .obj [("ok", .bool ok), ("report_id", .str report_id),
          ("generated_at", .str generated_at), ("format", .str format),
          ("data", d), ("meta", mt)] =>
    (reportDataFromJson d).bind fun data =>
      (reportMetaFromJson mt).bind fun meta =>
        some { ok, report_id, generated_at, format, data, meta }
  | _ => none

theorem report_round (r : Report) :
    reportFromJson (reportToJson r) = some r := by
  simp [reportFromJson, reportToJson, reportDataFromJson,
    reportMetaFromJson, overview_round, trading_round, insight_round,
    parseEach_round JsonValue.str jsonStr (fun _ => rfl)]

/-- The runtime's locale rendering `new Date(s).toLocaleString()`,
modelled as the identity on the stored timestamp string (a deterministic
function of the timestamp, which is all the renderer relies on). -/
def dateToLocaleString (s : String) : String := s

/-- Insert a thousands separator after every third digit of a reversed
digit list. -/
def group3 : List Char → List Char
  | a :: b :: c :: d :: rest => a :: b :: c :: ',' :: group3 (d :: rest)
  | l => l

/-- en-US thousands grouping of a natural number. -/
def groupThousands (n : ℕ) : String :=
  String.mk (group3 (Nat.repr n).data.reverse).reverse

/-- `Number.prototype.toLocaleString()` under the en-US default: grouped
integer part and at most three rounded fraction digits with trailing
zeros trimmed (exact for the integral counts this repository renders). -/
def numToLocaleString (q : ℚ) : String :=
  let sign := if q < 0 then "-" else ""
  let x := |q|
  let ip := (⌊x⌋).toNat
  let n3 := (⌊(x - ⌊x⌋) * 1000 + 1/2⌋).toNat
  let fracDigits :=
    ((zeroPad 3 (Nat.repr (n3 % 1000))).data.reverse.dropWhile
      (fun ch => ch == '0')).reverse
  if fracDigits.isEmpty then sign ++ groupThousands ip
  else sign ++ groupThousands ip ++ "." ++ String.mk fracDigits

def intRepr (i : ℤ) : String :=
  if i < 0 then "-" ++ Nat.repr i.natAbs else Nat.repr i.natAbs

/-- JS number-to-string coercion (template literals): exact for the
integral values occurring in reports; a non-integral value (absent from
the repository's report data) is rendered as numerator/denominator. -/
def jsNumToString (q : ℚ) : String :=
  if q.den = 1 then intRepr q.num
  else intRepr q.num ++ "/" ++ Nat.repr q.den

/-- One row of the Top Cryptocurrencies table. -/
def cryptoRow (c : OverviewCrypto) : String :=
  "| " ++ Nat.repr c.rank ++ " | " ++ c.name ++ " | " ++ c.symbol
    ++ " | " ++ formatCurrency c.price ++ " | "
    ++ formatPercent c.percent_change_24h ++ " | "
    ++ formatPercent c.percent_change_7d ++ " | "
    ++ formatCurrency c.market_cap ++ " |"

/-- One row of the Top Trading Pairs table. -/
def pairRow (p : TradingPair) : String :=
  "| " ++ p.symbol ++ " | " ++ formatCurrency p.price ++ " | "
    ++ formatPercent p.priceChangePercent24h ++ " | "
    ++ formatCurrency p.quoteVolume24h ++ " |"

/-- `generateMarkdownReport(data)`: the deterministic Markdown projection
of a Report. -/
def generateMarkdownReport (data : Report) : String :=
  let report_id := data.report_id
  let generated_at := data.generated_at
  let meta := data.meta
  let market_overview := data.data.market_overview
  let trading_summary := data.data.trading_summary
  let ai_insights := data.data.ai_insights
  "# FinanceFlow Market Report\n\n**Report ID:** " ++ report_id
    ++ "  \n**Generated:** " ++ dateToLocaleString generated_at
    ++ "  \n**Version:** " ++ meta.version
    ++ "  \n**Data Sources:** " ++ String.intercalate ", " meta.data_sources
    ++ "\n\n---\n\n## Executive Summary\n\n" ++ ai_insights.summary
    ++ "\n\n**Market Sentiment:** " ++ ai_insights.sentiment.toUpper
    ++ "  \n**Confidence Level:** " ++ jsNumToString ai_insights.confidence
    ++ "%\n\n---\n\n## Global Market Overview\n\n| Metric | Value |\n|--------|-------|\n| Total Market Cap | "
    ++ formatCurrency market_overview.global.total_market_cap
    ++ " |\n| 24h Volume | "
    ++ formatCurrency market_overview.global.total_volume_24h
    ++ " |\n| BTC Dominance | "
    ++ toFixedQ 1 market_overview.global.btc_dominance
    ++ "% |\n| ETH Dominance | "
    ++ toFixedQ 1 market_overview.global.eth_dominance
    ++ "% |\n| Active Cryptocurrencies | "
    ++ numToLocaleString market_overview.global.active_cryptocurrencies
    ++ " |\n| Active Exchanges | "
    ++ numToLocaleString market_overview.global.active_exchanges
    ++ " |\n\n---\n\n## Top Cryptocurrencies\n\n| Rank | Name | Symbol | Price | 24h Change | 7d Change | Market Cap |\n|------|------|--------|-------|------------|-----------|------------|\n"
    ++ String.intercalate "\n" (market_overview.top_cryptos.map cryptoRow)
    ++ "\n\n---\n\n## Top Trading Pairs (Binance)\n\n| Pair | Price | 24h Change | Volume |\n|------|-------|------------|--------|\n"
    ++ String.intercalate "\n" ((trading_summary.pairs.take 10).map pairRow)
    ++ "\n\n---\n\n## AI Insights\n\n### Key Points\n\n"
    ++ String.intercalate "\n"
        (ai_insights.key_points.map (fun point => "- " ++ point))
    ++ "\n\n### Opportunities\n\n"
    ++ String.intercalate "\n"
        (ai_insights.opportunities.map (fun opp => "- " ++ opp))
    ++ "\n\n### Risks\n\n"
    ++ String.intercalate "\n"
        (ai_insights.risks.map (fun risk => "- " ++ risk))
    ++ "\n\n### Recommendation\n\n" ++ ai_insights.recommendation
    ++ "\n\n---\n\n## Disclaimer\n\nThis report is generated automatically using AI and real-time market data. It is for informational purposes only and should not be considered as financial advice. Always conduct your own research and consult with a qualified financial advisor before making investment decisions.\n\n---\n\n*Report generated by FinanceFlow v2.0 - CRSET Personal Stack*  \n*Powered by CoinMarketCap, Binance, and OpenAI*\n"

/-- A concrete report used by the C5 counterexample. -/
def c5Report (vol : ℚ) : Report :=
  { ok := true, report_id := "rpt_1_abc", generated_at := "2025-11-02",
    format := "json",
    data := {
      market_overview := {
        ok := true, timestamp := "2025-11-02", currency := "USD",
        global := { total_market_cap := 3800000000000,
                    total_volume_24h := 125000000000,
                    btc_dominance := 56.5, eth_dominance := 18.2,
                    active_cryptocurrencies := 10500,
                    active_exchanges := 750 },
        top_cryptos := [{ rank := 1, name := "Bitcoin", symbol := "BTC",
                          price := 109554.23,
                          market_cap := 2136307485000,
                          volume_24h := vol,
                          percent_change_24h := 1.57,
                          percent_change_7d := 3.45 }],
        meta := { source := "CoinMarketCap API", count := 1 } },
      trading_summary := {
        ok := true, timestamp := "2025-11-02", source := "Binance API",
        pairs := [{ symbol := "BTCUSDT", price := 109554.23,
                    priceChange24h := 1700, priceChangePercent24h := 1.57,
                    high24h := 110000, low24h := 108000,
                    volume24h := 320000, quoteVolume24h := 35000000000 }],
        meta := { exchange := "Binance", pairs_count := 1,
                  base_currency := "USDT" } },
      ai_insights := {
        summary := "Steady market.", sentiment := "neutral",
        key_points := ["BTC leads"], opportunities := ["ETH"],
        risks := ["Volatility"], recommendation := "Hold.",
        confidence := 85, timestamp := "2025-11-02" } },
    meta := { version := "2.0",
              data_sources := ["CoinMarketCap", "Binance", "OpenAI"],
              generation_duration_ms := 120 } }

/-- C5 counterexample: two canonical Reports that differ only in the top
crypto's `volume_24h` field render to the very same Markdown document —
the text rendering does not contain every field of the canonical
structure, so the two renderings are not lossless-equivalent. -/
theorem markdown_drops_canonical_fields :
    generateMarkdownReport (c5Report 5) = generateMarkdownReport (c5Report 7)
      ∧ c5Report 5 ≠ c5Report 7 := by
  refine ⟨rfl, ?_⟩
  intro h
  have h5 : ((c5Report 5).data.market_overview.top_cryptos.map
      (fun c => c.volume_24h)) = [5] := rfl
  rw [h] at h5
  have h7 : ((c5Report 7).data.market_overview.top_cryptos.map
      (fun c => c.volume_24h)) = [7] := rfl
  rw [h7] at h5
  have : (7:ℚ) = 5 := by injection h5
  norm_num at this

/-- C5 (amended): the structured (JSON) rendering is lossless — rendering
and re-parsing yields a value equal to the original canonical Report; the
Markdown rendering is not (see the counterexample: it omits canonical
fields such as each crypto's `volume_24h`). -/
theorem structured_render_reparse_identity (r : Report) :
    reportFromJson (reportToJson r) = some r :=
  report_round r

end Crset
